import Mathlib

/-!
# Verification of the OKR progress-rollup and consistency-cascade engine

Shallow embedding of the core of the `okr-exp` repository (TypeScript/Mongoose)
into Lean 4, together with theorems settling the frozen specification claims.

Modelling conventions:
* JavaScript numeric values are modelled as rationals (`ℚ`); `Math.round x` is
  `⌊x + 1/2⌋` (JS rounds halves toward `+∞`), `Math.ceil` is `⌈·⌉`.
* MongoDB `ObjectId`s are modelled as `Nat` identifiers; `Date`s as rational
  millisecond timestamps.
* Mongoose schema-level validation (required fields, `min`/`max` attributes) is
  not modelled; only the explicit checks written in the service and hook code
  are.  Persistence is modelled as explicit state passing.
* `Promise.all([a.save(), b.save()])` (src/unnamed/part_007, the check-in
  service) starts both saves and rejects with the first rejection without
  cancelling the other; pre-`save` hooks read the state as it was when the
  saves were initiated.  This is modelled deterministically: the hook
  validations run against the pre-call state, and the OKR save is persisted
  whether or not the check-in save was rejected.
-/

/-- `Math.round` of JavaScript: round to the nearest integer, halves toward
`+∞`. -/
def jsRound (q : ℚ) : ℤ := ⌊q + 1/2⌋

/-- Milliseconds in a day, the divisor `1000*60*60*24` used by the code for
deadline distances. -/
def msPerDay : ℚ := 1000 * 60 * 60 * 24

/-- `Math.ceil((deadline - now) / msPerDay)`: the days-until-deadline count
computed by the stats hooks. -/
def daysUntilDeadline (deadline now : ℚ) : ℤ := ⌈(deadline - now) / msPerDay⌉

/-- The metric kinds appearing in the Key Result schemas (`metricType` enums of
src/src/models/CorporateOKR.ts and the OKR schema in src/unnamed/part_014). -/
inductive MetricType where
  | number
  | percentage
  | currency
  | duration
  | custom
  deriving DecidableEq, Repr

/-- The Metric Calculator: the per-Key-Result progress recomputation inlined in
`OKRSchema.pre('save')` (src/unnamed/part_014, lines 124–139) and repeated in
`CorporateOKRService.updateCorporateOKRProgress` (src/unnamed/part_009,
lines 444–450):

```js
if (kr.metricType === 'percentage') {
  const span = kr.targetValue - kr.startValue;
  const currentProgress = kr.actualValue - kr.startValue;
  raw = span === 0 ? 100 : (currentProgress / span) * 100;
} else {
  const span = kr.targetValue - kr.startValue;
  raw = span === 0 ? 100 : ((kr.actualValue - kr.startValue) / span) * 100;
}
kr.progress = Math.min(100, Math.max(0, Math.round(raw)));
```
-/
def metricCalculator (metricType : MetricType) (startValue targetValue actualValue : ℚ) : ℤ :=
  let raw : ℚ :=
    match metricType with
    | .percentage =>
      let span := targetValue - startValue
      let currentProgress := actualValue - startValue
      if span = 0 then 100 else (currentProgress / span) * 100
    | _ =>
      let span := targetValue - startValue
      if span = 0 then 100 else ((actualValue - startValue) / span) * 100
  min 100 (max 0 (jsRound raw))

/-- Rounding after clamping to `[0,100]` agrees with clamping after rounding:
the claim states `round(clamp(raw, 0, 100))`, the code computes
`min(100, max(0, round(raw)))`. -/
theorem jsRound_clamp (q : ℚ) :
    jsRound (min 100 (max 0 q)) = min 100 (max 0 (jsRound q)) := by
  have hhalf0 : ⌊(0 : ℚ) + 1/2⌋ = 0 := by norm_num
  have hhalf100 : ⌊(100 : ℚ) + 1/2⌋ = 100 := by norm_num
  unfold jsRound
  rcases le_or_lt q 0 with h0 | h0
  · have hq : ⌊q + 1/2⌋ ≤ 0 := by
      have h := Int.floor_le_floor (α := ℚ) (show q + 1/2 ≤ 0 + 1/2 by linarith)
      rw [hhalf0] at h
      exact h
    rw [max_eq_left h0]
    have hmin : min (100 : ℚ) 0 = 0 := by norm_num
    rw [hmin]
    have h1 : max (0 : ℤ) ⌊q + 1/2⌋ = 0 := max_eq_left hq
    rw [h1]
    norm_num
  · rcases le_or_lt q 100 with h100 | h100
    · have hmax : max (0 : ℚ) q = q := max_eq_right h0.le
      rw [hmax]
      have hminq : min (100 : ℚ) q = q := min_eq_right h100
      rw [hminq]
      have hlow : (0 : ℤ) ≤ ⌊q + 1/2⌋ := by
        apply Int.le_floor.mpr
        push_cast
        linarith
      have hhigh : ⌊q + 1/2⌋ ≤ 100 := by
        have h := Int.floor_le_floor (α := ℚ) (show q + 1/2 ≤ 100 + 1/2 by linarith)
        rw [hhalf100] at h
        exact h
      rw [max_eq_right hlow, min_eq_right hhigh]
    · have hmax : max (0 : ℚ) q = q := max_eq_right (by linarith)
      rw [hmax]
      have hminq : min (100 : ℚ) q = 100 := min_eq_left h100.le
      rw [hminq]
      have hq : (100 : ℤ) ≤ ⌊q + 1/2⌋ := by
        apply Int.le_floor.mpr
        push_cast
        linarith
      have h1 : max (0 : ℤ) ⌊q + 1/2⌋ = ⌊q + 1/2⌋ := max_eq_right (by linarith)
      rw [h1, min_eq_left hq, hhalf100]

/-- C9: the Metric Calculator always lands in `[0,100]`; a zero span yields
exactly 100; otherwise it is `round(clamp(((actual-start)/(target-start))·100, 0, 100))`,
uniformly in the metric kind (the `percentage` branch computes the same
formula). -/
theorem metricCalculator_spec (metricType : MetricType) (startValue targetValue actualValue : ℚ) :
    0 ≤ metricCalculator metricType startValue targetValue actualValue ∧
    metricCalculator metricType startValue targetValue actualValue ≤ 100 ∧
    (targetValue - startValue = 0 →
      metricCalculator metricType startValue targetValue actualValue = 100) ∧
    (targetValue - startValue ≠ 0 →
      metricCalculator metricType startValue targetValue actualValue =
        jsRound (min 100 (max 0
          (((actualValue - startValue) / (targetValue - startValue)) * 100)))) := by
  have hraweq : ∀ raw : ℚ,
      (0 : ℤ) ≤ min 100 (max 0 (jsRound raw)) ∧ min 100 (max 0 (jsRound raw)) ≤ 100 := by
    intro raw
    constructor
    · exact le_min (by norm_num) (le_max_left _ _)
    · exact min_le_left _ _
  refine ⟨?_, ?_, ?_, ?_⟩
  · cases metricType <;> exact (hraweq _).1
  · cases metricType <;> exact (hraweq _).2
  · intro hspan
    have h100 : min (100 : ℤ) (max 0 (jsRound 100)) = 100 := by
      have hj : jsRound (100 : ℚ) = 100 := by norm_num [jsRound]
      rw [hj]
      norm_num
    cases metricType <;> simp [metricCalculator, hspan, h100]
  · intro hspan
    rw [jsRound_clamp]
    cases metricType <;> simp [metricCalculator, hspan]

/-- Closed witness for `metricCalculator_spec`: instantiation at the
number-metric Key Result `start = 0`, `target = 10`, `actual = 5` (progress
50), discharging the span hypotheses concretely. -/
theorem metricCalculator_spec_witness :
    metricCalculator .number 0 10 5 = 50 ∧
    metricCalculator .number 0 0 5 = 100 := by
  have h := metricCalculator_spec .number 0 10 5
  have h0 := metricCalculator_spec .number 0 0 5
  refine ⟨?_, h0.2.2.1 (by norm_num)⟩
  have heq := h.2.2.2 (by norm_num)
  rw [heq]
  norm_num [jsRound]

/-! ## Check-in pipeline (src/unnamed/part_007 and src/src/models/CheckIn.ts)

The team Objective as the check-in pipeline sees it.  The Key Result schema of
src/src/models/OKR.ts stores only a title, an optional description and a
progress number (no metric fields); `isFrozen` and `deadline` are the fields
read by the CheckIn hooks (`okr.isFrozen`, `okr.deadline`). -/

/-- A Key Result embedded in a team Objective (src/src/models/OKR.ts
`KeyResultSchema`). -/
structure TeamKR where
  title : String
  description : Option String := none
  progress : ℚ
  deriving DecidableEq, Repr

/-- A team Objective (src/src/models/OKR.ts `OKRSchema`, together with the
`isFrozen` and `deadline` fields read by the CheckIn hooks). -/
structure TeamOKR where
  isFrozen : Bool
  deadline : Option ℚ := none
  keyResults : List TeamKR
  progress : ℚ
  parentOKR : Option Nat := none
  parentKRIndex : Option Nat := none
  deriving DecidableEq, Repr

/-- One entry of the `updates` argument of
`CheckInService.createCheckIn(okrId, userId, updates, comment)`
(src/unnamed/part_007, line 7): the caller supplies a Key Result index and a
`newProgress` value. -/
structure KRUpdateInput where
  index : ℤ
  newProgress : ℚ
  deriving DecidableEq, Repr

/-- One entry of the `updates` array stored on a Check-in record as built by
`createCheckIn` (src/unnamed/part_007, lines 33–37). -/
structure CheckInUpdate where
  index : ℤ
  previousProgress : ℚ
  newProgress : ℚ
  deriving DecidableEq, Repr

/-- The Check-in audit record (src/src/models/CheckIn.ts `CheckInSchema`, as
populated by src/unnamed/part_007). -/
structure CheckInRec where
  user : Nat
  comment : Option String
  updates : List CheckInUpdate
  deriving DecidableEq, Repr

/-- Lifecycle/health statuses of the stats projections
(src/src/models/OKRStats.ts `status` enum). -/
inductive OKRStatus where
  | on_track
  | at_risk
  | off_track
  | completed
  deriving DecidableEq, Repr

/-- One `progressHistory` entry of a stats record (src/src/models/OKRStats.ts):
a timestamp, the overall progress and the per-Key-Result progress values. -/
structure HistoryEntry where
  date : ℚ
  value : ℚ
  keyResultsProgress : List (Nat × ℚ)
  deriving DecidableEq, Repr

/-- The Derived Stats record of a team Objective (src/src/models/OKRStats.ts),
restricted to the fields the embedded operations read or write. -/
structure OKRStatsRec where
  progress : ℚ
  keyResultsStats : List (Nat × ℚ)
  progressHistory : List HistoryEntry
  totalCheckIns : Nat
  lastCheckIn : Option ℚ := none
  checkInFrequency : Option ℚ := none
  uniqueContributors : List Nat
  status : OKRStatus
  isFrozen : Bool
  completedAt : Option ℚ := none
  deadline : Option ℚ := none
  deriving DecidableEq, Repr

/-- Errors thrown by the check-in pipeline, by their `Error` messages:
`notFound` = "OKR not found", `invalidIndex` = "Invalid key result index",
`invalidProgress` = "Invalid progress value", `frozen` = "Cannot create
check-in: OKR is frozen.", `cannotRegress` = "Cannot decrease progress of a
completed key result.", `alreadyComplete` = "Cannot create check-in: OKR
progress is already 100%.". -/
inductive CIError where
  | notFound
  | invalidIndex
  | invalidProgress
  | frozen
  | cannotRegress
  | alreadyComplete
  deriving DecidableEq, Repr

/-- JavaScript array access `keyResults[index]` with an integer index: out of
range (including negative) yields `undefined`. -/
def krAt (krs : List TeamKR) (i : ℤ) : Option TeamKR :=
  if i < 0 then none else krs[i.toNat]?

/-- The per-update validation loop of `createCheckIn` (src/unnamed/part_007,
lines 19–26), returning the first failure:

```js
for (const update of updates) {
  if (typeof update.index !== 'number' || update.index < 0 ||
      update.index >= okr.keyResults.length) throw new Error('Invalid key result index');
  if (typeof update.newProgress !== 'number' || update.newProgress < 0 ||
      update.newProgress > 100) throw new Error('Invalid progress value');
}
``` -/
def validateUpdates (okr : TeamOKR) : List KRUpdateInput → Option CIError
  | [] => none
  | u :: rest =>
    if u.index < 0 ∨ (okr.keyResults.length : ℤ) ≤ u.index then some .invalidIndex
    else if u.newProgress < 0 ∨ 100 < u.newProgress then some .invalidProgress
    else validateUpdates okr rest

/-- `okr.keyResults[update.index].progress = update.newProgress`
(src/unnamed/part_007, line 42) for one update; in-range indices only (the
service has already validated them; a JS write through a negative or
out-of-range index would not create an array element that mongoose persists). -/
def applyUpdate (krs : List TeamKR) (u : KRUpdateInput) : List TeamKR :=
  if u.index < 0 then krs
  else
    match krs[u.index.toNat]? with
    | some kr => krs.set u.index.toNat { kr with progress := u.newProgress }
    | none => krs

/-- The update loop of src/unnamed/part_007, lines 41–43. -/
def applyUpdates (krs : List TeamKR) (us : List KRUpdateInput) : List TeamKR :=
  us.foldl applyUpdate krs

/-- The Objective Aggregator of src/src/models/OKR.ts `OKRSchema.pre('save')`
(and repeated in the CheckIn post-save hook):
`okr.progress = keyResults.length ? Math.round(total / keyResults.length) : 0`. -/
def teamAggregate (krs : List TeamKR) : ℚ :=
  if krs.length = 0 then 0
  else (jsRound ((krs.foldl (fun s k => s + k.progress) 0) / krs.length) : ℚ)

/-- The guards of `CheckInSchema.pre('save')` (src/src/models/CheckIn.ts,
lines 41–67), evaluated against the Objective as stored when the save was
initiated: frozen check, monotonic-completion check, already-complete check —
in that order. -/
def checkInPreSave (okr : TeamOKR) (updates : List KRUpdateInput) : Option CIError :=
  if okr.isFrozen then some .frozen
  else if updates.any (fun u =>
      match krAt okr.keyResults u.index with
      | some kr => decide (kr.progress = 100 ∧ u.newProgress < 100)
      | none => false) then some .cannotRegress
  else
    let willCompleteOKR := updates.all (fun u =>
      (krAt okr.keyResults u.index).isSome && decide (u.newProgress = 100))
    if okr.progress = 100 ∧ ¬willCompleteOKR then some .alreadyComplete
    else none

/-- The mutable state the check-in pipeline touches: the target Objective (or
`none` when `okrId` resolves to nothing), the stored audit records, and the
Objective's Derived Stats record (or `none` when no stats document exists). -/
structure CIState where
  okr : Option TeamOKR
  checkIns : List CheckInRec
  stats : Option OKRStatsRec
  deriving DecidableEq, Repr

/-- The Derived Stats update performed by the CheckIn post-save hook
(src/src/models/OKRStats.ts, CheckIn section, lines 156–217): copy the new
progress, rebuild `keyResultsStats`, append a history snapshot, update the
status (`completed`/`on_track`/`at_risk`, leaving it unchanged in every other
case), bump the check-in counter, record the check-in time, recompute the
check-in frequency, and add the author to the contributor set. -/
def updateOKRStatsOnCheckIn (okr : TeamOKR) (userId : Nat) (now : ℚ)
    (s : OKRStatsRec) : OKRStatsRec :=
  let newHistory := s.progressHistory ++
    [⟨now, okr.progress, (okr.keyResults.enum.map fun p => (p.1, p.2.progress))⟩]
  let statusAndCompleted : OKRStatus × Option ℚ :=
    if okr.progress = 100 then (.completed, some now)
    else if 75 ≤ okr.progress then (.on_track, s.completedAt)
    else
      match okr.deadline with
      | some d =>
        if okr.progress < 50 then
          if daysUntilDeadline d now ≤ 5 then (.at_risk, s.completedAt)
          else (s.status, s.completedAt)
        else (s.status, s.completedAt)
      | none => (s.status, s.completedAt)
  let newFrequency : Option ℚ :=
    if 1 < newHistory.length then
      match newHistory.head?, newHistory.getLast? with
      | some first, some last =>
        some (((last.date - first.date) / msPerDay) / (newHistory.length - 1 : ℕ))
      | _, _ => s.checkInFrequency
    else s.checkInFrequency
  { s with
    progress := okr.progress
    keyResultsStats := okr.keyResults.enum.map fun p => (p.1, p.2.progress)
    progressHistory := newHistory
    status := statusAndCompleted.1
    completedAt := statusAndCompleted.2
    totalCheckIns := s.totalCheckIns + 1
    lastCheckIn := some now
    checkInFrequency := newFrequency
    uniqueContributors :=
      if userId ∈ s.uniqueContributors then s.uniqueContributors
      else s.uniqueContributors ++ [userId] }

/-- `submitCheckIn`: `CheckInService.createCheckIn` (src/unnamed/part_007,
lines 7–57) composed with the hooks its saves fire
(src/src/models/CheckIn.ts `pre('save')`/`post('save')`,
src/src/models/OKR.ts `pre('save')`, and the stats section of
src/src/models/OKRStats.ts).

Steps, as in the source: resolve the Objective (`NotFound`), validate every
update (`InvalidIndex`/`InvalidProgress`), build the audit record with the
previous progress values, write each `newProgress` into its Key Result, then
`Promise.all([checkIn.save(), okr.save()])`.  `okr.save()` persists the
mutated Key Results and re-aggregates the overall progress whether or not the
check-in save is rejected by its pre-save guards; on success the check-in
post-save hook re-applies the same values (idempotent) and updates the Derived
Stats.  The corporate rollup triggered for a linked Objective acts on the
corporate entities only and is modelled separately by `recalculateKRProgress`;
it never touches the team entities in this state. -/
def createCheckIn (st : CIState) (userId : Nat) (updates : List KRUpdateInput)
    (comment : Option String) (now : ℚ) : Except CIError CheckInRec × CIState :=
  match st.okr with
  | none => (.error .notFound, st)
  | some okr =>
    match validateUpdates okr updates with
    | some e => (.error e, st)
    | none =>
      let checkInDoc : CheckInRec :=
        { user := userId
          comment := comment
          updates := updates.map fun u =>
            { index := u.index
              previousProgress := ((krAt okr.keyResults u.index).map (·.progress)).getD 0
              newProgress := u.newProgress } }
      let krs := applyUpdates okr.keyResults updates
      let okrSaved : TeamOKR := { okr with keyResults := krs, progress := teamAggregate krs }
      match checkInPreSave okr updates with
      | some e => (.error e, { st with okr := some okrSaved })
      | none =>
        (.ok checkInDoc,
          { okr := some okrSaved
            checkIns := st.checkIns ++ [checkInDoc]
            stats := st.stats.map (updateOKRStatsOnCheckIn okrSaved userId now) })

/-! ### Helper lemmas about the update loop -/

/-- A well-formed update per the service validation: index in range and
progress in `[0,100]`. -/
def validInput (okr : TeamOKR) (v : KRUpdateInput) : Prop :=
  (0 ≤ v.index ∧ v.index < (okr.keyResults.length : ℤ)) ∧
  (0 ≤ v.newProgress ∧ v.newProgress ≤ 100)

theorem validateUpdates_none_valid (okr : TeamOKR) :
    ∀ us : List KRUpdateInput, validateUpdates okr us = none →
      ∀ u ∈ us, validInput okr u := by
  intro us
  induction us with
  | nil => intro _ u hu; cases hu
  | cons v rest ih =>
    intro h u hu
    rw [validateUpdates] at h
    by_cases h1 : v.index < 0 ∨ (okr.keyResults.length : ℤ) ≤ v.index
    · simp [h1] at h
    · by_cases h2 : v.newProgress < 0 ∨ 100 < v.newProgress
      · simp [h1, h2] at h
      · simp only [if_neg h1, if_neg h2] at h
        rcases List.mem_cons.mp hu with hu | hu
        · subst hu
          push_neg at h1 h2
          exact ⟨⟨h1.1, h1.2⟩, ⟨h2.1, h2.2⟩⟩
        · exact ih h u hu

theorem applyUpdate_length (krs : List TeamKR) (u : KRUpdateInput) :
    (applyUpdate krs u).length = krs.length := by
  unfold applyUpdate
  split
  · rfl
  · split <;> simp

theorem applyUpdates_length (us : List KRUpdateInput) :
    ∀ krs : List TeamKR, (applyUpdates krs us).length = krs.length := by
  induction us with
  | nil => intro krs; rfl
  | cons u rest ih =>
    intro krs
    show (applyUpdates (applyUpdate krs u) rest).length = _
    rw [ih, applyUpdate_length]

theorem applyUpdates_append (krs : List TeamKR) (xs ys : List KRUpdateInput) :
    applyUpdates krs (xs ++ ys) = applyUpdates (applyUpdates krs xs) ys :=
  List.foldl_append _ _ _ _

theorem applyUpdate_getElem_ne (krs : List TeamKR) (v : KRUpdateInput) (i : ℤ)
    (hi : 0 ≤ i) (hne : v.index ≠ i) :
    (applyUpdate krs v)[i.toNat]? = krs[i.toNat]? := by
  unfold applyUpdate
  split
  · rfl
  · rename_i hvneg
    push_neg at hvneg
    split
    · apply List.getElem?_set_ne
      intro hc
      exact hne (by omega)
    · rfl

theorem applyUpdates_getElem_untouched (l2 : List KRUpdateInput) (i : ℤ) (hi : 0 ≤ i)
    (h : ∀ v ∈ l2, v.index ≠ i) :
    ∀ krs : List TeamKR, (applyUpdates krs l2)[i.toNat]? = krs[i.toNat]? := by
  induction l2 with
  | nil => intro krs; rfl
  | cons v rest ih =>
    intro krs
    show (applyUpdates (applyUpdate krs v) rest)[i.toNat]? = _
    rw [ih (fun w hw => h w (List.mem_cons_of_mem _ hw)),
      applyUpdate_getElem_ne krs v i hi (h v (List.mem_cons_self _ _))]

theorem applyUpdate_getElem_self (krs : List TeamKR) (u : KRUpdateInput)
    (h0 : 0 ≤ u.index) (hlt : u.index.toNat < krs.length) :
    ((applyUpdate krs u)[u.index.toNat]?.map (·.progress)) = some u.newProgress := by
  unfold applyUpdate
  rw [if_neg (by omega)]
  rcases hk : krs[u.index.toNat]? with _ | kr
  · rw [List.getElem?_eq_none_iff] at hk
    omega
  · simp [List.getElem?_set_eq_of_lt _ (by simpa using hlt)]

/-! ### C1 — what an accepted check-in stores into a Key Result -/

/-- Concrete state for the C1 counterexample: an unfrozen Objective with one
Key Result at progress 0 and no stats record. -/
def stC1 : CIState :=
  { okr := some { isFrozen := false, keyResults := [{ title := "kr", progress := 0 }], progress := 0 }
    checkIns := []
    stats := none }

/-- C1 counterexample: the claim says an accepted `submitCheckIn` payload
carries new actual values and that the stored progress is the Metric
Calculator of `(metricKind, startValue, targetValue, newActualValue)`, the
caller never setting progress directly.  In the code the payload field is
`newProgress` and it is written verbatim: on the same initial state, two
accepted batches that could not differ in any actual value (the payload has no
actual-value field) store the two different caller-chosen progress values 37
and 42. -/
theorem createCheckIn_progress_is_caller_chosen :
    (createCheckIn stC1 1 [{ index := 0, newProgress := 37 }] none 0).1 =
      .ok { user := 1, comment := none,
            updates := [{ index := 0, previousProgress := 0, newProgress := 37 }] } ∧
    ((createCheckIn stC1 1 [{ index := 0, newProgress := 37 }] none 0).2.okr.map
      fun o => o.keyResults.map (·.progress)) = some [37] ∧
    (createCheckIn stC1 1 [{ index := 0, newProgress := 42 }] none 0).1 =
      .ok { user := 1, comment := none,
            updates := [{ index := 0, previousProgress := 0, newProgress := 42 }] } ∧
    ((createCheckIn stC1 1 [{ index := 0, newProgress := 42 }] none 0).2.okr.map
      fun o => o.keyResults.map (·.progress)) = some [42] ∧
    (37 : ℚ) ≠ 42 := by
  refine ⟨?_, ?_, ?_, ?_, by norm_num⟩ <;>
    norm_num [createCheckIn, stC1, validateUpdates, checkInPreSave, krAt,
      applyUpdates, applyUpdate, teamAggregate, updateOKRStatsOnCheckIn, jsRound]

/-- C1 (amended): for every accepted check-in, each targeted Key Result's
stored progress afterwards equals the caller-supplied `newProgress` of the
last update in the batch addressing that index — the caller sets progress
directly; no Metric Calculator and no actual values are involved. -/
theorem createCheckIn_stores_caller_newProgress (st : CIState) (okr : TeamOKR)
    (userId : Nat) (l1 l2 : List KRUpdateInput) (u : KRUpdateInput)
    (comment : Option String) (now : ℚ) (r : CheckInRec) (st' : CIState)
    (hok : st.okr = some okr)
    (hres : createCheckIn st userId (l1 ++ u :: l2) comment now = (.ok r, st'))
    (hlast : ∀ v ∈ l2, v.index ≠ u.index) :
    (st'.okr.map fun o => o.keyResults[u.index.toNat]?.map (·.progress)) =
      some (some u.newProgress) := by
  simp only [createCheckIn, hok] at hres
  rcases hval : validateUpdates okr (l1 ++ u :: l2) with _ | e
  · simp only [hval] at hres
    rcases hpre : checkInPreSave okr (l1 ++ u :: l2) with _ | e
    · simp only [hpre, Prod.mk.injEq] at hres
      have hst' : st' = _ := hres.2.symm
      subst hst'
      have huvalid : validInput okr u :=
        validateUpdates_none_valid okr _ hval u (by simp)
      have h0 : 0 ≤ u.index := huvalid.1.1
      have hlen : u.index.toNat < (applyUpdates okr.keyResults l1).length := by
        rw [applyUpdates_length]
        have := huvalid.1.2
        omega
      simp only [Option.map_some]
      rw [applyUpdates_append]
      show some ((applyUpdates (applyUpdates okr.keyResults l1) (u :: l2))[u.index.toNat]?.map
        (·.progress)) = _
      have hstep : applyUpdates (applyUpdates okr.keyResults l1) (u :: l2) =
          applyUpdates (applyUpdate (applyUpdates okr.keyResults l1) u) l2 := rfl
      rw [hstep, applyUpdates_getElem_untouched l2 u.index h0 hlast,
        applyUpdate_getElem_self _ u h0 hlen]
    · simp only [hpre] at hres
      simp at hres
  · simp only [hval] at hres
    simp at hres

/-- Closed witness for `createCheckIn_stores_caller_newProgress`: the accepted
batch `[{index 0, newProgress 37}]` on `stC1` stores progress 37. -/
theorem createCheckIn_stores_caller_newProgress_witness :
    ((createCheckIn stC1 1 [{ index := 0, newProgress := 37 }] none 0).2.okr.map
      fun o => o.keyResults[(0 : ℤ).toNat]?.map (·.progress)) = some (some 37) := by
  apply createCheckIn_stores_caller_newProgress stC1
    { isFrozen := false, keyResults := [{ title := "kr", progress := 0 }], progress := 0 }
    1 [] [] { index := 0, newProgress := 37 } none 0
    { user := 1, comment := none,
      updates := [{ index := 0, previousProgress := 0, newProgress := 37 }] }
  · rfl
  · norm_num [createCheckIn, stC1, validateUpdates, checkInPreSave, krAt,
      applyUpdates, applyUpdate, teamAggregate, jsRound]
  · intro v hv
    cases hv

/-! ### C2/C3 — rejected check-ins still persist the Key Result mutation

`createCheckIn` mutates `okr.keyResults[...]` in memory *before*
`Promise.all([checkIn.save(), okr.save()])`.  When a CheckIn pre-save guard
rejects, `okr.save()` is not cancelled: the mutated progress values are
persisted even though the caller receives the error. -/

/-- A frozen Objective with a single Key Result at progress 20. -/
def okrC2 : TeamOKR :=
  { isFrozen := true, keyResults := [{ title := "kr", progress := 20 }], progress := 20 }

/-- Derived Stats of `okrC2` before the call. -/
def statsC2 : OKRStatsRec :=
  { progress := 20, keyResultsStats := [(0, 20)], progressHistory := []
    totalCheckIns := 0, uniqueContributors := [], status := .on_track, isFrozen := true }

/-- Pipeline state for the C2 failing input. -/
def stC2 : CIState := { okr := some okrC2, checkIns := [], stats := some statsC2 }

/-- C2 failing input, evaluated: submitting `[{index 0, newProgress 50}]`
against the frozen `okrC2` raises `Frozen`, yet the Objective's Key Result
progress has changed from 20 to 50 and its overall progress from 20 to 50 —
only the audit list and the Derived Stats are untouched.  The claim (and the
code's own comment "Save both check-in and OKR in a transaction") requires
that no entity change. -/
theorem createCheckIn_frozen_still_mutates :
    (createCheckIn stC2 1 [{ index := 0, newProgress := 50 }] none 0).1 = .error .frozen ∧
    ((createCheckIn stC2 1 [{ index := 0, newProgress := 50 }] none 0).2.okr.map
      fun o => o.keyResults.map (·.progress)) = some [50] ∧
    ((createCheckIn stC2 1 [{ index := 0, newProgress := 50 }] none 0).2.okr.map
      (·.progress)) = some 50 ∧
    (createCheckIn stC2 1 [{ index := 0, newProgress := 50 }] none 0).2.checkIns = [] ∧
    (createCheckIn stC2 1 [{ index := 0, newProgress := 50 }] none 0).2.stats = some statsC2 ∧
    okrC2.keyResults.map (·.progress) = [20] ∧ okrC2.progress = 20 := by
  refine ⟨?_, ?_, ?_, ?_, ?_, by norm_num [okrC2], by norm_num [okrC2]⟩ <;>
    norm_num [createCheckIn, stC2, okrC2, statsC2, validateUpdates, checkInPreSave,
      krAt, applyUpdates, applyUpdate, teamAggregate, jsRound]

/-- An unfrozen Objective whose single Key Result is complete (progress 100). -/
def okrC3 : TeamOKR :=
  { isFrozen := false, keyResults := [{ title := "kr", progress := 100 }], progress := 100 }

/-- Derived Stats of `okrC3` before the call. -/
def statsC3 : OKRStatsRec :=
  { progress := 100, keyResultsStats := [(0, 100)], progressHistory := []
    totalCheckIns := 0, uniqueContributors := [], status := .completed, isFrozen := false }

/-- Pipeline state for the C3 failing input. -/
def stC3 : CIState := { okr := some okrC3, checkIns := [], stats := some statsC3 }

/-- C3 failing input, evaluated: the batch `[{index 0, newProgress 50}]` on a
Key Result at progress 100 is rejected with `CannotRegress` by the CheckIn
pre-save guard, yet the parallel `okr.save()` persists the lowered progress
(100 → 50) and the recomputed overall progress.  The claim requires that no
entity be mutated. -/
theorem createCheckIn_regress_still_mutates :
    (createCheckIn stC3 1 [{ index := 0, newProgress := 50 }] none 0).1 =
      .error .cannotRegress ∧
    ((createCheckIn stC3 1 [{ index := 0, newProgress := 50 }] none 0).2.okr.map
      fun o => o.keyResults.map (·.progress)) = some [50] ∧
    ((createCheckIn stC3 1 [{ index := 0, newProgress := 50 }] none 0).2.okr.map
      (·.progress)) = some 50 ∧
    (createCheckIn stC3 1 [{ index := 0, newProgress := 50 }] none 0).2.checkIns = [] ∧
    (createCheckIn stC3 1 [{ index := 0, newProgress := 50 }] none 0).2.stats = some statsC3 ∧
    okrC3.keyResults.map (·.progress) = [100] ∧ okrC3.progress = 100 := by
  refine ⟨?_, ?_, ?_, ?_, ?_, by norm_num [okrC3], by norm_num [okrC3]⟩ <;>
    norm_num [createCheckIn, stC3, okrC3, statsC3, validateUpdates, checkInPreSave,
      krAt, applyUpdates, applyUpdate, teamAggregate, jsRound]

/-! ### C4 — the order of the precondition checks -/

/-- C4 counterexample: on a frozen Objective whose batch contains the
out-of-range index 5, the reported error is `InvalidIndex` (the service
validates indices before any save, hence before the pre-save `Frozen` guard),
not `Frozen` as the claim states. -/
theorem createCheckIn_frozen_invalid_index_reports_invalidIndex :
    (createCheckIn stC2 1 [{ index := 5, newProgress := 50 }] none 0).1 =
      .error .invalidIndex ∧
    okrC2.isFrozen = true ∧
    CIError.invalidIndex ≠ CIError.frozen := by
  refine ⟨?_, rfl, by simp⟩
  norm_num [createCheckIn, stC2, okrC2, validateUpdates]

theorem validateUpdates_first_invalidIndex (okr : TeamOKR) (u : KRUpdateInput)
    (l2 : List KRUpdateInput)
    (hu : u.index < 0 ∨ (okr.keyResults.length : ℤ) ≤ u.index) :
    ∀ l1 : List KRUpdateInput, (∀ v ∈ l1, validInput okr v) →
      validateUpdates okr (l1 ++ u :: l2) = some .invalidIndex := by
  intro l1
  induction l1 with
  | nil =>
    intro _
    rw [List.nil_append, validateUpdates, if_pos hu]
  | cons v rest ih =>
    intro hvalid
    have hv := hvalid v (List.mem_cons_self _ _)
    rw [List.cons_append, validateUpdates]
    rw [if_neg (by push_neg; exact ⟨hv.1.1, hv.1.2⟩),
      if_neg (by push_neg; exact ⟨hv.2.1, hv.2.2⟩)]
    exact ih fun w hw => hvalid w (List.mem_cons_of_mem _ hw)

/-- C4 (amended): the checks run in the order `NotFound`, then per-update
`InvalidIndex`/`InvalidProgress` (the service validates the whole batch before
saving), then `Frozen`, `CannotRegress`, `AlreadyComplete` (the CheckIn
pre-save guards); the first failure wins.  In particular a frozen Objective
whose batch contains an out-of-range index (preceded only by well-formed
updates) reports `InvalidIndex`, not `Frozen`; `Frozen` is reported exactly
when the Objective resolves, every update is well-formed, and the frozen flag
is set. -/
theorem createCheckIn_error_order :
    (∀ (st : CIState) (userId : Nat) (updates : List KRUpdateInput)
      (comment : Option String) (now : ℚ), st.okr = none →
      (createCheckIn st userId updates comment now).1 = .error .notFound) ∧
    (∀ (st : CIState) (okr : TeamOKR) (userId : Nat)
      (l1 l2 : List KRUpdateInput) (u : KRUpdateInput)
      (comment : Option String) (now : ℚ), st.okr = some okr →
      (∀ v ∈ l1, validInput okr v) →
      (u.index < 0 ∨ (okr.keyResults.length : ℤ) ≤ u.index) →
      (createCheckIn st userId (l1 ++ u :: l2) comment now).1 = .error .invalidIndex) ∧
    (∀ (st : CIState) (okr : TeamOKR) (userId : Nat) (updates : List KRUpdateInput)
      (comment : Option String) (now : ℚ), st.okr = some okr →
      validateUpdates okr updates = none → okr.isFrozen = true →
      (createCheckIn st userId updates comment now).1 = .error .frozen) := by
  refine ⟨?_, ?_, ?_⟩
  · intro st userId updates comment now hok
    simp [createCheckIn, hok]
  · intro st okr userId l1 l2 u comment now hok hvalid hu
    simp only [createCheckIn, hok,
      validateUpdates_first_invalidIndex okr u l2 hu l1 hvalid]
  · intro st okr userId updates comment now hok hval hfrozen
    simp only [createCheckIn, hok, hval, checkInPreSave, if_pos hfrozen]

/-- Closed witness for `createCheckIn_error_order`: its `InvalidIndex` part at
the frozen state `stC2` with the out-of-range update `{index 5}`, and its
`Frozen` part at `stC2` with the in-range update `{index 0, newProgress 50}`. -/
theorem createCheckIn_error_order_witness :
    (createCheckIn stC2 1 [{ index := 5, newProgress := 50 }] none 0).1 =
      .error .invalidIndex ∧
    (createCheckIn stC2 1 [{ index := 0, newProgress := 50 }] none 0).1 =
      .error .frozen := by
  constructor
  · exact createCheckIn_error_order.2.1 stC2 okrC2 1 []
      [] { index := 5, newProgress := 50 } none 0 rfl (by intro v hv; cases hv)
      (by norm_num [okrC2])
  · exact createCheckIn_error_order.2.2 stC2 okrC2 1
      [{ index := 0, newProgress := 50 }] none 0 rfl
      (by norm_num [validateUpdates, okrC2]) rfl

/-! ## Corporate world (src/src/models/CorporateOKR.ts, src/unnamed/part_009)

State for the corporate-side operations: Corporate Objectives, the team
Objectives as the corporate services see them (id, owning team, creator,
frozen flag, parent link, overall progress), the corporate Derived Stats
records, and the teams used by the permission checks. -/

/-- A team document (src/src/models/Team.ts) restricted to the fields
`linkTeamOKRToCorporate` reads. -/
structure TeamEnt where
  id : Nat
  createdBy : Nat
  deriving DecidableEq, Repr

/-- A team Objective as the corporate services see it (src/src/models/OKR.ts /
src/unnamed/part_014: id, owning team, creator, frozen flag, parent link and
overall progress). -/
structure LinkedOKR where
  id : Nat
  team : Nat
  createdBy : Nat
  isFrozen : Bool
  parentOKR : Option Nat
  parentKRIndex : Option Nat
  progress : ℚ
  deriving DecidableEq, Repr

/-- A corporate Key Result (src/src/models/CorporateOKR.ts
`CorporateKRSchema`). -/
structure CorporateKR where
  title : String
  metricType : MetricType
  startValue : ℚ
  targetValue : ℚ
  actualValue : ℚ
  progress : ℚ
  teams : List Nat
  deriving DecidableEq, Repr

/-- A Corporate Objective (src/src/models/CorporateOKR.ts
`CorporateOKRSchema`). -/
structure CorporateOKR where
  id : Nat
  isFrozen : Bool
  deadline : Option ℚ := none
  keyResults : List CorporateKR
  progress : ℚ
  deriving DecidableEq, Repr

/-- The corporate Derived Stats record (src/src/models/CorporateOKRStats.ts as
used by `recalculateKRProgress`), restricted to the fields the embedded
operations read or write. -/
structure CorporateOKRStatsRec where
  corporateOKR : Nat
  progress : ℚ
  isFrozen : Bool
  keyResultsStats : List (Nat × ℚ)
  progressHistory : List HistoryEntry
  status : OKRStatus
  completedAt : Option ℚ := none
  deriving DecidableEq, Repr

/-- The persistent state the corporate-side operations touch. -/
structure World where
  corps : List CorporateOKR
  okrs : List LinkedOKR
  corpStats : List CorporateOKRStatsRec
  teams : List TeamEnt
  deriving DecidableEq, Repr

/-- `CorporateOKR.findById`. -/
def findCorp (w : World) (cid : Nat) : Option CorporateOKR :=
  w.corps.find? fun c => c.id == cid

/-- `OKR.findById`. -/
def findOKRDoc (w : World) (oid : Nat) : Option LinkedOKR :=
  w.okrs.find? fun o => o.id == oid

/-- `CorporateOKRStats.findOne({corporateOKR})`. -/
def findCorpStats (w : World) (cid : Nat) : Option CorporateOKRStatsRec :=
  w.corpStats.find? fun s => s.corporateOKR == cid

/-- `Team.findById`. -/
def findTeam (w : World) (tid : Nat) : Option TeamEnt :=
  w.teams.find? fun t => t.id == tid

/-- `CorporateOKR.updateOne({_id}, {$set: {keyResults.IDX.progress}})`: writes
the progress of one Key Result (the index is in range whenever the caller
found the Key Result; an out-of-range `$set` would not produce a Key Result
mongoose reads back, so it is modelled as a no-op). -/
def setCorpKRProgress (w : World) (cid : Nat) (krIndex : Nat) (p : ℚ) : World :=
  { w with corps := w.corps.map fun c =>
    if c.id == cid then
      match c.keyResults[krIndex]? with
      | some kr => { c with keyResults := c.keyResults.set krIndex { kr with progress := p } }
      | none => c
    else c }

/-- `CorporateOKR.updateOne({_id}, {$set: {progress}})`. -/
def setCorpOverallProgress (w : World) (cid : Nat) (p : ℚ) : World :=
  { w with corps := w.corps.map fun c => if c.id == cid then { c with progress := p } else c }

/-- `stats.save()` after mutating the record found for `cid`. -/
def replaceCorpStats (w : World) (cid : Nat) (s' : CorporateOKRStatsRec) : World :=
  { w with corpStats := w.corpStats.map fun s => if s.corporateOKR == cid then s' else s }

/-- The status/completion update of `recalculateKRProgress`
(src/src/models/CorporateOKR.ts, lines 132–147): returns the new
`(status, completedAt)` pair from the freshly computed overall progress, the
deadline and the previous `completedAt`:

```js
if (overallProgress === 100) { stats.status = 'completed'; stats.completedAt = new Date(); }
else if (overallProgress >= 75) { stats.status = 'on_track'; }
else if (overallProgress < 50 && corporateOKR.deadline instanceof Date) {
  const daysUntilDeadline = Math.ceil((deadline - now) / (1000*60*60*24));
  stats.status = daysUntilDeadline <= 5 ? 'at_risk' : 'on_track';
} else { stats.status = 'on_track'; }
``` -/
def corporateStatusUpdate (overallProgress : ℤ) (deadline : Option ℚ) (now : ℚ)
    (completedAt : Option ℚ) : OKRStatus × Option ℚ :=
  if overallProgress = 100 then (.completed, some now)
  else if 75 ≤ overallProgress then (.on_track, completedAt)
  else if overallProgress < 50 then
    match deadline with
    | some d =>
      if daysUntilDeadline d now ≤ 5 then (.at_risk, completedAt)
      else (.on_track, completedAt)
    | none => (.on_track, completedAt)
  else (.on_track, completedAt)

/-- The corporate Derived Stats update inside `recalculateKRProgress`
(src/src/models/CorporateOKR.ts, lines 107–149): copy progress and frozen
flag, rebuild `keyResultsStats`, append a history snapshot, run the status
update.  `corp` is the Corporate Objective as re-fetched after the Key Result
write. -/
def updateCorpStatsAfterRollup (corp : CorporateOKR) (overallProgress : ℤ) (now : ℚ)
    (s : CorporateOKRStatsRec) : CorporateOKRStatsRec :=
  let statusAndCompleted := corporateStatusUpdate overallProgress corp.deadline now s.completedAt
  { s with
    progress := (overallProgress : ℚ)
    isFrozen := corp.isFrozen
    keyResultsStats := corp.keyResults.enum.map fun p => (p.1, p.2.progress)
    progressHistory := s.progressHistory ++
      [⟨now, (overallProgress : ℚ), corp.keyResults.enum.map fun p => (p.1, p.2.progress)⟩]
    status := statusAndCompleted.1
    completedAt := statusAndCompleted.2 }

/-- The Rollup Coordinator: `recalculateKRProgress(krIndex, corporateOKRId)`
(src/src/models/CorporateOKR.ts, lines 64–154).  Loads every Objective whose
parent link equals `(corporateOKRId, krIndex)`; if none, does nothing;
otherwise writes the rounded mean of their clamped progresses into the target
Key Result, re-aggregates the Corporate Objective's overall progress from its
(clamped) Key Result progresses, and updates the corporate Derived Stats
record when one exists.  (The `isNaN` filters of the source are identities
over `ℚ` and are not modelled.) -/
def recalculateKRProgress (krIndex : Nat) (corporateOKRId : Nat) (now : ℚ) (w : World) : World :=
  let linkedOKRs := w.okrs.filter fun o =>
    o.parentOKR == some corporateOKRId && o.parentKRIndex == some krIndex
  if 0 < linkedOKRs.length then
    let normalizedProgresses := linkedOKRs.map fun o => min 100 (max 0 o.progress)
    if 0 < normalizedProgresses.length then
      let totalProgress := normalizedProgresses.foldl (· + ·) 0
      let averageProgress := jsRound (totalProgress / normalizedProgresses.length)
      let w1 := setCorpKRProgress w corporateOKRId krIndex (averageProgress : ℚ)
      match findCorp w1 corporateOKRId with
      | some corporateOKR =>
        if 0 < corporateOKR.keyResults.length then
          let totalKRProgress := corporateOKR.keyResults.foldl
            (fun s kr => s + min 100 (max 0 kr.progress)) 0
          let overallProgress := jsRound (totalKRProgress / corporateOKR.keyResults.length)
          let w2 := setCorpOverallProgress w1 corporateOKRId (overallProgress : ℚ)
          match findCorpStats w2 corporateOKRId with
          | some stats =>
            replaceCorpStats w2 corporateOKRId
              (updateCorpStatsAfterRollup corporateOKR overallProgress now stats)
          | none => w2
        else w1
      | none => w1
    else w
  else w

/-- The Objective Aggregator over corporate Key Results
(`CorporateOKRSchema.pre('save')`, src/src/models/CorporateOKR.ts,
lines 157–176): rounded mean of the clamped Key Result progresses, 0 when the
list is empty. -/
def corporateAggregate (krs : List CorporateKR) : ℚ :=
  if krs.length = 0 then 0
  else (jsRound ((krs.foldl (fun s kr => s + min 100 (max 0 kr.progress)) 0) / krs.length) : ℚ)

/-- The Freeze Cascade: `CorporateOKRService.updateOKRFreezeStatus`
(src/unnamed/part_009, lines 111–132) composed with the hooks its
`corporateOKR.save()` fires (src/src/models/CorporateOKR.ts): the pre-save
recomputation of every delegated Key Result and of the overall progress
(lines 156–176), the `isFrozen` mirror into the corporate stats record
(lines 199–218), and the propagation of the flag to every Objective whose
`parentOKR` references this Corporate Objective — which the pre-save hook,
the post-save hook (lines 246–343) and the service itself (lines 125–129) all
perform with the same filter `{ parentOKR: corporateOKRId }`, irrespective of
`parentKRIndex`.  (The history/counter bookkeeping of the post-save hook and
the per-team-Objective stats mirrors live outside this state and are modelled
with the check-in pipeline.) -/
def updateOKRFreezeStatus (corporateOKRId : Nat) (isFrozen : Bool) (now : ℚ)
    (w : World) : Except CIError World :=
  match findCorp w corporateOKRId with
  | none => .error .notFound
  | some corporateOKR =>
    let w1 : World := (List.range corporateOKR.keyResults.length).foldl
      (fun acc i => recalculateKRProgress i corporateOKRId now acc) w
    let w2 : World := { w1 with corps := w1.corps.map fun c =>
      if c.id == corporateOKRId then
        { c with isFrozen := isFrozen, progress := corporateAggregate c.keyResults }
      else c }
    let w3 : World := { w2 with corpStats := w2.corpStats.map fun s =>
      if s.corporateOKR == corporateOKRId then { s with isFrozen := isFrozen } else s }
    .ok { w3 with okrs := w3.okrs.map fun o =>
      if o.parentOKR == some corporateOKRId then { o with isFrozen := isFrozen } else o }

/-- Errors thrown by `linkTeamOKRToCorporate`, by their messages:
`frozenCorporate` = "Cannot link to a frozen corporate OKR", `forbidden` =
"Only team creator or OKR creator can link OKRs", `krNotFound` = "Key result
not found or has no teams assigned", `teamNotAssigned` = "Team is not assigned
to this Key Result". -/
inductive LinkError where
  | teamOKRNotFound
  | corpNotFound
  | frozenCorporate
  | teamNotFound
  | forbidden
  | krNotFound
  | teamNotAssigned
  | updateFailed
  deriving DecidableEq, Repr

/-- `CorporateOKRService.linkTeamOKRToCorporate` (src/unnamed/part_009,
lines 188–256): resolve the Objective and the Corporate Objective, refuse a
frozen Corporate Objective, check the caller is team or Objective creator,
check the Key Result exists (a present-but-empty `teams` array is truthy in
JS, so `!keyResult.teams` only guards a missing field) and that the
Objective's team is assigned to it; then set the parent link and inherit the
Corporate Objective's current frozen flag, and trigger the Rollup
Coordinator. -/
def linkTeamOKRToCorporate (teamOKRId corporateOKRId : Nat) (krIndex : Nat)
    (userId : Nat) (now : ℚ) (w : World) : Except LinkError LinkedOKR × World :=
  match findOKRDoc w teamOKRId with
  | none => (.error .teamOKRNotFound, w)
  | some teamOKR =>
    match findCorp w corporateOKRId with
    | none => (.error .corpNotFound, w)
    | some corporateOKR =>
      if corporateOKR.isFrozen then (.error .frozenCorporate, w)
      else
        match findTeam w teamOKR.team with
        | none => (.error .teamNotFound, w)
        | some team =>
          if ¬(team.createdBy = userId ∨ teamOKR.createdBy = userId) then
            (.error .forbidden, w)
          else
            match corporateOKR.keyResults[krIndex]? with
            | none => (.error .krNotFound, w)
            | some keyResult =>
              if teamOKR.team ∉ keyResult.teams then (.error .teamNotAssigned, w)
              else
                let w1 := { w with okrs := w.okrs.map fun o =>
                  if o.id == teamOKRId then
                    { o with parentOKR := some corporateOKRId
                             parentKRIndex := some krIndex
                             isFrozen := corporateOKR.isFrozen }
                  else o }
                match findOKRDoc w1 teamOKRId with
                | none => (.error .updateFailed, w1)
                | some updatedTeamOKR =>
                  (.ok updatedTeamOKR, recalculateKRProgress krIndex corporateOKRId now w1)

/-! ### C5 — the completion timestamp -/

/-- A team Objective whose single Key Result is complete. -/
def okrDone : TeamOKR :=
  { isFrozen := false, keyResults := [{ title := "kr", progress := 100 }], progress := 100 }

/-- Derived Stats that already record a completion timestamp (time 5). -/
def statsDone : OKRStatsRec :=
  { progress := 100, keyResultsStats := [(0, 100)], progressHistory := []
    totalCheckIns := 1, uniqueContributors := [1], status := .completed
    isFrozen := false, completedAt := some 5 }

/-- C5 counterexample: a later stats update that re-observes progress = 100
(at time 9) overwrites the previously recorded completion timestamp (5) —
`completedAt` is written afresh on every observation of 100, not only on the
first transition. -/
theorem completedAt_overwritten_on_reobservation :
    (updateOKRStatsOnCheckIn okrDone 1 9 statsDone).completedAt = some 9 ∧
    statsDone.completedAt = some 5 ∧
    (some (9 : ℚ)) ≠ some 5 := by
  refine ⟨?_, rfl, by norm_num⟩
  norm_num [updateOKRStatsOnCheckIn, okrDone, statsDone]

/-- C5 (amended): whenever the Stats Projector observes progress = 100 — on
the team check-in path or on the corporate rollup path — it sets the status to
`completed` and (re)writes the completion timestamp to the current time,
overwriting any previously recorded one; the timestamp is not guarded to the
first transition. -/
theorem completedAt_set_on_every_completion :
    (∀ (okr : TeamOKR) (userId : Nat) (now : ℚ) (s : OKRStatsRec),
      okr.progress = 100 →
      (updateOKRStatsOnCheckIn okr userId now s).status = .completed ∧
      (updateOKRStatsOnCheckIn okr userId now s).completedAt = some now) ∧
    (∀ (overallProgress : ℤ) (deadline : Option ℚ) (now : ℚ) (completedAt : Option ℚ),
      overallProgress = 100 →
      corporateStatusUpdate overallProgress deadline now completedAt =
        (.completed, some now)) := by
  constructor
  · intro okr userId now s h
    constructor <;> simp [updateOKRStatsOnCheckIn, h]
  · intro overallProgress deadline now completedAt h
    simp [corporateStatusUpdate, h]

/-- Closed witness for `completedAt_set_on_every_completion` at `okrDone`,
`statsDone`, time 9 and at the corporate pair `(100, no deadline)`. -/
theorem completedAt_set_on_every_completion_witness :
    ((updateOKRStatsOnCheckIn okrDone 1 9 statsDone).status = .completed ∧
      (updateOKRStatsOnCheckIn okrDone 1 9 statsDone).completedAt = some 9) ∧
    corporateStatusUpdate 100 none 9 (some 5) = (.completed, some 9) :=
  ⟨completedAt_set_on_every_completion.1 okrDone 1 9 statsDone rfl,
    completedAt_set_on_every_completion.2 100 none 9 (some 5) rfl⟩

/-! ### C6 — the classification rule -/

/-- The Classification Rule exactly as the specification words it (for
comparison with the embedded code): progress = 100 → completed; else ≥ 75 →
on_track; else < 50 with a deadline at most 5 days away → at_risk; every other
case → on_track. -/
def specClassificationRule (progress : ℚ) (deadline : Option ℚ) (now : ℚ) : OKRStatus :=
  if progress = 100 then .completed
  else if 75 ≤ progress then .on_track
  else if progress < 50 then
    match deadline with
    | some d => if daysUntilDeadline d now ≤ 5 then .at_risk else .on_track
    | none => .on_track
  else .on_track

/-- An Objective in the 50–75 band. -/
def okrSixty : TeamOKR :=
  { isFrozen := false, keyResults := [{ title := "kr", progress := 60 }], progress := 60 }

/-- Derived Stats whose stored status is `at_risk`. -/
def statsAtRisk : OKRStatsRec :=
  { progress := 40, keyResultsStats := [(0, 40)], progressHistory := []
    totalCheckIns := 1, uniqueContributors := [1], status := .at_risk
    isFrozen := false }

/-- C6 counterexample: after a check-in that brings the Objective to progress
60 (no deadline), the team-path stats update leaves the previously stored
`at_risk` status in place, while the claim's pure function yields `on_track`
for the 50–75 band — the status written is not a pure function of (progress,
deadline). -/
theorem teamStatus_not_pure_function :
    (updateOKRStatsOnCheckIn okrSixty 1 0 statsAtRisk).status = .at_risk ∧
    specClassificationRule 60 none 0 = .on_track ∧
    OKRStatus.at_risk ≠ OKRStatus.on_track := by
  refine ⟨?_, by norm_num [specClassificationRule], by simp⟩
  norm_num [updateOKRStatsOnCheckIn, okrSixty, statsAtRisk]

/-- C6 (amended): on the corporate rollup path the status written is exactly
the claim's pure function of (progress, deadline).  On the team check-in path
the cases progress = 100 → completed, progress ≥ 75 → on_track and
(progress < 50, deadline within 5 days) → at_risk hold as claimed, but in
every other case (the 50–75 band; progress < 50 with no deadline; progress
< 50 with a deadline more than 5 days away) the hook writes nothing and the
previously stored status survives. -/
theorem statsStatus_classification :
    (∀ (overallProgress : ℤ) (deadline : Option ℚ) (now : ℚ) (completedAt : Option ℚ),
      (corporateStatusUpdate overallProgress deadline now completedAt).1 =
        specClassificationRule (overallProgress : ℚ) deadline now) ∧
    (∀ (okr : TeamOKR) (userId : Nat) (now : ℚ) (s : OKRStatsRec),
      (okr.progress = 100 →
        (updateOKRStatsOnCheckIn okr userId now s).status = .completed) ∧
      (okr.progress ≠ 100 → 75 ≤ okr.progress →
        (updateOKRStatsOnCheckIn okr userId now s).status = .on_track) ∧
      (∀ d, okr.progress < 50 → okr.deadline = some d → daysUntilDeadline d now ≤ 5 →
        (updateOKRStatsOnCheckIn okr userId now s).status = .at_risk) ∧
      (okr.progress < 75 → 50 ≤ okr.progress →
        (updateOKRStatsOnCheckIn okr userId now s).status = s.status) ∧
      (okr.progress < 50 → okr.deadline = none →
        (updateOKRStatsOnCheckIn okr userId now s).status = s.status) ∧
      (∀ d, okr.progress < 50 → okr.deadline = some d → 5 < daysUntilDeadline d now →
        (updateOKRStatsOnCheckIn okr userId now s).status = s.status)) := by
  constructor
  · intro overallProgress deadline now completedAt
    have q1 : ((overallProgress : ℚ) = 100) ↔ (overallProgress = 100) := by
      exact_mod_cast Iff.rfl
    have q2 : ((75 : ℚ) ≤ (overallProgress : ℚ)) ↔ ((75 : ℤ) ≤ overallProgress) := by
      exact_mod_cast Iff.rfl
    have q3 : ((overallProgress : ℚ) < 50) ↔ (overallProgress < (50 : ℤ)) := by
      exact_mod_cast Iff.rfl
    rcases deadline with _ | d <;>
      simp only [corporateStatusUpdate, specClassificationRule, q1, q2, q3] <;>
      split_ifs <;> rfl
  · intro okr userId now s
    refine ⟨?_, ?_, ?_, ?_, ?_, ?_⟩
    · intro h
      simp [updateOKRStatsOnCheckIn, h]
    · intro h1 h2
      simp [updateOKRStatsOnCheckIn, h1, h2]
    · intro d h1 h2 h3
      have hne : okr.progress ≠ 100 := by intro h; rw [h] at h1; norm_num at h1
      have hlt : ¬(75 ≤ okr.progress) := by intro h; linarith
      simp [updateOKRStatsOnCheckIn, hne, hlt, h1, h2, h3]
    · intro h1 h2
      have hne : okr.progress ≠ 100 := by intro h; rw [h] at h2; norm_num at h2 h1; linarith
      have hlt : ¬(75 ≤ okr.progress) := by intro h; linarith
      have h50 : ¬(okr.progress < 50) := by intro h; linarith
      rcases hd : okr.deadline with _ | d <;>
        simp [updateOKRStatsOnCheckIn, hne, hlt, h50, hd]
    · intro h1 h2
      have hne : okr.progress ≠ 100 := by intro h; rw [h] at h1; norm_num at h1
      have hlt : ¬(75 ≤ okr.progress) := by intro h; linarith
      simp [updateOKRStatsOnCheckIn, hne, hlt, h1, h2]
    · intro d h1 h2 h3
      have hne : okr.progress ≠ 100 := by intro h; rw [h] at h1; norm_num at h1
      have hlt : ¬(75 ≤ okr.progress) := by intro h; linarith
      have hnear : ¬(daysUntilDeadline d now ≤ 5) := by omega
      simp [updateOKRStatsOnCheckIn, hne, hlt, h1, h2, hnear]

/-- Closed witness for `statsStatus_classification`: the corporate part at
`(60, no deadline)` and the team keep-previous part at `okrSixty` over
`statsAtRisk`. -/
theorem statsStatus_classification_witness :
    (corporateStatusUpdate 60 none 0 none).1 = specClassificationRule ((60 : ℤ) : ℚ) none 0 ∧
    (updateOKRStatsOnCheckIn okrSixty 1 0 statsAtRisk).status = statsAtRisk.status := by
  constructor
  · exact statsStatus_classification.1 60 none 0 none
  · exact (statsStatus_classification.2 okrSixty 1 0 statsAtRisk).2.2.2.1
      (by norm_num [okrSixty]) (by norm_num [okrSixty])

/-! ### C7 — freeze propagation -/

/-- C7: after a successful `updateOKRFreezeStatus(corporateOKRId, isFrozen)`,
every Objective whose parent link references that Corporate Objective —
whatever its `parentKRIndex`, and however many such Objectives exist — carries
the given frozen flag. -/
theorem updateOKRFreezeStatus_freezes_all_linked (w : World) (corporateOKRId : Nat)
    (isFrozen : Bool) (now : ℚ) (w' : World)
    (h : updateOKRFreezeStatus corporateOKRId isFrozen now w = .ok w') :
    ∀ o ∈ w'.okrs, o.parentOKR = some corporateOKRId → o.isFrozen = isFrozen := by
  rcases hc : findCorp w corporateOKRId with _ | corp
  · simp only [updateOKRFreezeStatus, hc] at h
    cases h
  · simp only [updateOKRFreezeStatus, hc, Except.ok.injEq] at h
    subst h
    intro o ho hp
    rcases List.mem_map.mp ho with ⟨p, _, hpe⟩
    by_cases hcond : p.parentOKR == some corporateOKRId
    · rw [if_pos hcond] at hpe
      rw [← hpe]
    · rw [if_neg hcond] at hpe
      subst hpe
      exact absurd (beq_iff_eq.mpr hp) hcond

/-- World for the C7 witness: one Corporate Objective (id 1, no Key Results),
two Objectives linked to it through different Key Result indices (one of them
dangling), and one Objective linked to another Corporate Objective. -/
def wC7 : World :=
  { corps := [{ id := 1, isFrozen := false, keyResults := [], progress := 0 }]
    okrs :=
      [{ id := 10, team := 7, createdBy := 3, isFrozen := false
         parentOKR := some 1, parentKRIndex := some 0, progress := 40 }
       , { id := 11, team := 7, createdBy := 3, isFrozen := false
           parentOKR := some 1, parentKRIndex := some 3, progress := 60 }
       , { id := 12, team := 8, createdBy := 3, isFrozen := true
           parentOKR := some 2, parentKRIndex := some 0, progress := 10 }]
    corpStats := []
    teams := [] }

/-- The state `updateOKRFreezeStatus 1 true` produces from `wC7`. -/
def wC7res : World :=
  { corps := [{ id := 1, isFrozen := true, keyResults := [], progress := 0 }]
    okrs :=
      [{ id := 10, team := 7, createdBy := 3, isFrozen := true
         parentOKR := some 1, parentKRIndex := some 0, progress := 40 }
       , { id := 11, team := 7, createdBy := 3, isFrozen := true
           parentOKR := some 1, parentKRIndex := some 3, progress := 60 }
       , { id := 12, team := 8, createdBy := 3, isFrozen := true
           parentOKR := some 2, parentKRIndex := some 0, progress := 10 }]
    corpStats := []
    teams := [] }

/-- Closed witness for `updateOKRFreezeStatus_freezes_all_linked`: freezing
Corporate Objective 1 in `wC7` freezes the Objective linked through Key Result
index 3. -/
theorem updateOKRFreezeStatus_freezes_all_linked_witness :
    ({ id := 11, team := 7, createdBy := 3, isFrozen := true
       parentOKR := some 1, parentKRIndex := some 3, progress := 60 } : LinkedOKR).isFrozen
      = true := by
  have h : updateOKRFreezeStatus 1 true 0 wC7 = .ok wC7res := by
    norm_num [updateOKRFreezeStatus, findCorp, wC7, wC7res, corporateAggregate]
  exact updateOKRFreezeStatus_freezes_all_linked wC7 1 true 0 wC7res h
    { id := 11, team := 7, createdBy := 3, isFrozen := true
      parentOKR := some 1, parentKRIndex := some 3, progress := 60 }
    (by simp [wC7res]) rfl

/-! ### C8 — rollup with no linked Objectives -/

/-- C8: when no Objective's parent link equals `(corporateOKRId, krIndex)`,
`recalculateKRProgress` changes nothing at all: the target Key Result keeps
its last computed progress, the Corporate Objective keeps its overall
progress, and the corporate Derived Stats are untouched. -/
theorem recalculateKRProgress_no_links_unchanged (w : World) (krIndex corporateOKRId : Nat)
    (now : ℚ)
    (h : ∀ o ∈ w.okrs, ¬(o.parentOKR = some corporateOKRId ∧ o.parentKRIndex = some krIndex)) :
    recalculateKRProgress krIndex corporateOKRId now w = w := by
  have hfilter : (w.okrs.filter fun o =>
      o.parentOKR == some corporateOKRId && o.parentKRIndex == some krIndex) = [] := by
    rw [List.filter_eq_nil_iff]
    intro o ho
    have := h o ho
    simp only [Bool.and_eq_true, beq_iff_eq]
    intro hc
    exact this ⟨hc.1, hc.2⟩
  simp only [recalculateKRProgress, hfilter]
  norm_num

/-- World for the C8 witness: one Objective linked to Key Result 0 of
Corporate Objective 1, whose Key Result 1 therefore has no links. -/
def wC8 : World :=
  { corps := [{ id := 1, isFrozen := false
                keyResults :=
                  [{ title := "kr0", metricType := .number, startValue := 0
                     targetValue := 10, actualValue := 0, progress := 40, teams := [7] }
                   , { title := "kr1", metricType := .number, startValue := 0
                       targetValue := 10, actualValue := 0, progress := 77, teams := [] }]
                progress := 59 }]
    okrs := [{ id := 10, team := 7, createdBy := 3, isFrozen := false
               parentOKR := some 1, parentKRIndex := some 0, progress := 40 }]
    corpStats := [{ corporateOKR := 1, progress := 59, isFrozen := false
                    keyResultsStats := [(0, 40), (1, 77)], progressHistory := []
                    status := .on_track }]
    teams := [] }

/-- Closed witness for `recalculateKRProgress_no_links_unchanged`: recomputing
the link-free Key Result 1 of Corporate Objective 1 in `wC8` leaves the whole
state unchanged (it keeps its last computed progress 77). -/
theorem recalculateKRProgress_no_links_unchanged_witness :
    recalculateKRProgress 1 1 0 wC8 = wC8 := by
  apply recalculateKRProgress_no_links_unchanged
  intro o ho hc
  simp only [wC8, List.mem_singleton] at ho
  subst ho
  simp at hc

/-! ### C10 — linking into a frozen Corporate Objective -/

/-- C10: (1) when the target Corporate Objective is frozen,
`linkTeamOKRToCorporate` fails with the frozen-corporate error and returns the
state unchanged — the Objective's parent link and frozen flag keep their prior
values; (2) consequently, whenever a link succeeds the freshly linked
Objective's inherited frozen flag is `false` (the inheritance can only ever
copy `false`). -/
theorem linkTeamOKRToCorporate_frozen_guard :
    (∀ (w : World) (teamOKRId corporateOKRId krIndex userId : Nat) (now : ℚ)
      (teamOKR : LinkedOKR) (corporateOKR : CorporateOKR),
      findOKRDoc w teamOKRId = some teamOKR →
      findCorp w corporateOKRId = some corporateOKR →
      corporateOKR.isFrozen = true →
      linkTeamOKRToCorporate teamOKRId corporateOKRId krIndex userId now w =
        (.error .frozenCorporate, w)) ∧
    (∀ (w : World) (teamOKRId corporateOKRId krIndex userId : Nat) (now : ℚ)
      (updatedTeamOKR : LinkedOKR) (w' : World),
      linkTeamOKRToCorporate teamOKRId corporateOKRId krIndex userId now w =
        (.ok updatedTeamOKR, w') →
      updatedTeamOKR.isFrozen = false) := by
  constructor
  · intro w teamOKRId corporateOKRId krIndex userId now teamOKR corporateOKR h1 h2 h3
    simp only [linkTeamOKRToCorporate, h1, h2, if_pos h3]
  · intro w teamOKRId corporateOKRId krIndex userId now updatedTeamOKR w' h
    rcases h1 : findOKRDoc w teamOKRId with _ | teamOKR
    · simp only [linkTeamOKRToCorporate, h1] at h
      simp at h
    rcases h2 : findCorp w corporateOKRId with _ | corporateOKR
    · simp only [linkTeamOKRToCorporate, h1, h2] at h
      simp at h
    by_cases h3 : corporateOKR.isFrozen
    · simp only [linkTeamOKRToCorporate, h1, h2, if_pos h3] at h
      simp at h
    rcases h4 : findTeam w teamOKR.team with _ | team
    · simp only [linkTeamOKRToCorporate, h1, h2, if_neg h3, h4] at h
      simp at h
    by_cases h5 : ¬(team.createdBy = userId ∨ teamOKR.createdBy = userId)
    · simp only [linkTeamOKRToCorporate, h1, h2, if_neg h3, h4, if_pos h5] at h
      simp at h
    rcases h6 : corporateOKR.keyResults[krIndex]? with _ | keyResult
    · simp only [linkTeamOKRToCorporate, h1, h2, if_neg h3, h4, if_neg h5, h6] at h
      simp at h
    by_cases h7 : teamOKR.team ∉ keyResult.teams
    · simp only [linkTeamOKRToCorporate, h1, h2, if_neg h3, h4, if_neg h5, h6,
        if_pos h7] at h
      simp at h
    simp only [linkTeamOKRToCorporate, h1, h2, if_neg h3, h4, if_neg h5, h6,
      if_neg h7] at h
    rcases h8 : findOKRDoc ({ w with okrs := w.okrs.map fun o =>
        if o.id == teamOKRId then
          { o with parentOKR := some corporateOKRId
                   parentKRIndex := some krIndex
                   isFrozen := corporateOKR.isFrozen }
        else o }) teamOKRId with _ | upd
    · simp only [h8] at h
      simp at h
    simp only [h8, Prod.mk.injEq, Except.ok.injEq] at h
    have hupd : upd = updatedTeamOKR := h.1
    subst hupd
    have hmem := List.mem_of_find?_eq_some h8
    simp only [List.mem_map] at hmem
    rcases hmem with ⟨p, _, hpe⟩
    by_cases hcond : p.id == teamOKRId
    · rw [if_pos hcond] at hpe
      rw [← hpe]
      simp
      exact Bool.not_eq_true _ ▸ h3
    · have hpred := List.find?_some h8
      rw [if_neg hcond] at hpe
      subst hpe
      exact absurd hpred (by simpa using hcond)

/-- World for the C10 witness: Corporate Objective 1 is frozen with Objective
10 eligible to link; Corporate Objective 2 is unfrozen with the same Objective
assignable to its Key Result 0. -/
def wC10 : World :=
  { corps :=
      [{ id := 1, isFrozen := true
         keyResults := [{ title := "kr", metricType := .number, startValue := 0
                          targetValue := 10, actualValue := 0, progress := 0, teams := [7] }]
         progress := 0 }
       , { id := 2, isFrozen := false
           keyResults := [{ title := "kr", metricType := .number, startValue := 0
                            targetValue := 10, actualValue := 0, progress := 0, teams := [7] }]
           progress := 0 }]
    okrs := [{ id := 10, team := 7, createdBy := 3, isFrozen := false
               parentOKR := none, parentKRIndex := none, progress := 40 }]
    corpStats := []
    teams := [{ id := 7, createdBy := 3 }] }

/-- Closed witness for `linkTeamOKRToCorporate_frozen_guard`: linking
Objective 10 into the frozen Corporate Objective 1 of `wC10` fails with the
frozen-corporate error leaving the state unchanged, and the successful link of
Objective 10 into the unfrozen Corporate Objective 2 inherits the frozen flag
`false`. -/
theorem linkTeamOKRToCorporate_frozen_guard_witness :
    linkTeamOKRToCorporate 10 1 0 3 0 wC10 = (.error .frozenCorporate, wC10) ∧
    ({ id := 10, team := 7, createdBy := 3, isFrozen := false
       parentOKR := some 2, parentKRIndex := some 0, progress := 40 } : LinkedOKR).isFrozen
      = false := by
  constructor
  · exact linkTeamOKRToCorporate_frozen_guard.1 wC10 10 1 0 3 0
      { id := 10, team := 7, createdBy := 3, isFrozen := false
        parentOKR := none, parentKRIndex := none, progress := 40 }
      { id := 1, isFrozen := true
        keyResults := [{ title := "kr", metricType := .number, startValue := 0
                         targetValue := 10, actualValue := 0, progress := 0, teams := [7] }]
        progress := 0 }
      (by norm_num [findOKRDoc, wC10]) (by norm_num [findCorp, wC10]) rfl
  · apply linkTeamOKRToCorporate_frozen_guard.2 wC10 10 2 0 3 0 _
      (recalculateKRProgress 0 2 0
        { wC10 with okrs := wC10.okrs.map fun o =>
          if o.id == 10 then
            { o with parentOKR := some 2, parentKRIndex := some 0, isFrozen := false }
          else o })
    norm_num [linkTeamOKRToCorporate, findOKRDoc, findCorp, findTeam, wC10]
